import Mathlib

set_option maxRecDepth 100000

/-!
# Verification of the normGym cafe simulation

Shallow embedding of the normGym repository (src/world.py, src/agent.py,
src/norm.py) and proofs about it.

Conventions:
* Grid positions are pairs of integers `(row, col)`, as in the Python code
  where positions are tuples of `int`.
* The numpy grid is a `List (List Nat)` of `height` rows of `width` cells,
  holding `CellType.value` codes.
* A direct numpy assignment `self.grid[r, c] = v` raises `IndexError` when
  the index is out of range; it is embedded as `npSet`, returning
  `Except PyErr`.  The bounds-checked helper `_add_rectangle` never raises
  and is embedded as the total function `addRectangle`.
* Python `dict` is embedded as an association list with
  assign-overwrites-or-appends semantics (`dictInsert`) and first-match
  lookup (`dictGet`).
* Python attribute lookup on the `Action` enumeration is embedded as
  `Action.getattr`, which fails with `PyErr.attributeError` for attribute
  names that are not members of the enumeration.
-/

namespace NormGym

/-- A grid position `(row, col)`; Python uses tuples of `int`. -/
abbrev Pos : Type := Int × Int

/-- The Python exceptions this code can raise. -/
inductive PyErr where
  | indexError
  | attributeError
  | keyError
  deriving DecidableEq, Repr

-- Cell type codes, from `CellType` in src/world.py.
namespace CellVal

def EMPTY : Nat := 0
def WALL : Nat := 1
def ENTRANCE : Nat := 2
def COUNTER : Nat := 3
def QUEUE_ZONE : Nat := 4
def PICKUP_SHELF : Nat := 5
def CHAIR : Nat := 6
def TABLE_2TOP : Nat := 7
def TABLE_4TOP : Nat := 8
def AISLE : Nat := 9
def KITCHEN : Nat := 10
def LAPTOP_BAR_COUNTER : Nat := 11

end CellVal

/-- The cell matrix of the numpy grid: `height` rows of `width` values. -/
abbrev Cells : Type := List (List Nat)

/-- Write value `v` at row `r`, column `c` (total helper; bounds are the
caller's concern, out-of-range `List.set` is a no-op). -/
def set2d (g : Cells) (r c v : Nat) : Cells :=
  g.set r ((g.getD r []).set c v)

/-- Read the cell value at row `r`, column `c` (0, i.e. EMPTY's code, when
out of range; all verified uses are guarded by bounds checks). -/
def get2d (g : Cells) (r c : Nat) : Nat :=
  (g.getD r []).getD c 0

/-- `self.grid[r, c] = v` on a numpy array of shape `(height, width)`:
raises `IndexError` when the index is out of range.  All indices written by
the layout code are non-negative literals, so only the upper bounds can
fail. -/
def npSet (height width : Nat) (g : Cells) (r c v : Nat) : Except PyErr Cells :=
  if r < height ∧ c < width then .ok (set2d g r c v) else .error .indexError

/-- One guarded write of `_add_rectangle` (src/world.py lines 148-154):
`if 0 <= r < self.height and 0 <= c < self.width: self.grid[r, c] = ...` -/
def setIfInBounds (height width : Nat) (g : Cells) (r c v : Nat) : Cells :=
  if r < height ∧ c < width then set2d g r c v else g

/-- `CafeWorld._add_rectangle` (src/world.py lines 148-154): the doubly
nested `for` loop over `range(start_row, start_row+h) x range(start_col,
start_col+w)` with a bounds check on every cell; it never raises. -/
def addRectangle (height width : Nat) (g : Cells)
    (startRow startCol rectH rectW v : Nat) : Cells :=
  (List.range rectH).foldl
    (fun g2 dr =>
      (List.range rectW).foldl
        (fun g3 dc => setIfInBounds height width g3 (startRow + dr) (startCol + dc) v) g2)
    g

/-- Make an integer position out of the (natural) loop indices. -/
def intPos (r c : Nat) : Pos := ((r : Int), (c : Int))

/-- The `chair_to_table` Python dict: chair position -> table position. -/
abbrev ChairDict : Type := List (Pos × Pos)

/-- Python dict assignment `d[k] = v`: overwrite the existing binding of
`k`, else append a new one (dicts keep insertion order). -/
def dictInsert (d : ChairDict) (k v : Pos) : ChairDict :=
  if d.any (fun e => e.1 = k) then
    d.map (fun e => if e.1 = k then (k, v) else e)
  else
    d ++ [(k, v)]

/-- Python dict lookup `d[k]` as an `Option` (a miss is a `KeyError`). -/
def dictGet (d : ChairDict) (k : Pos) : Option Pos :=
  (d.find? (fun e => decide (e.1 = k))).map (fun e => e.2)

/-- `CafeWorld._add_2top_with_chairs` (src/world.py lines 105-120): place
the single table cell, the chair above and the chair below (each an
unchecked numpy write), then map both chairs to the table. -/
def add2top (height width : Nat) (s : Cells × ChairDict) (row col : Nat) :
    Except PyErr (Cells × ChairDict) := do
  let g1 ← npSet height width s.1 row col CellVal.TABLE_2TOP
  let g2 ← npSet height width g1 (row - 1) col CellVal.CHAIR
  let g3 ← npSet height width g2 (row + 1) col CellVal.CHAIR
  let d1 := dictInsert s.2 (intPos (row - 1) col) (intPos row col)
  let d2 := dictInsert d1 (intPos (row + 1) col) (intPos row col)
  pure (g3, d2)

/-- One chair of `_add_4top_with_chairs` (src/world.py lines 142-146): the
write and the mapping happen only when the chair is inside the grid. -/
def add4topChair (height width : Nat) (s : Cells × ChairDict)
    (chairR chairC tableR tableC : Nat) : Cells × ChairDict :=
  if chairR < height ∧ chairC < width then
    (set2d s.1 chairR chairC CellVal.CHAIR,
     dictInsert s.2 (intPos chairR chairC) (intPos tableR tableC))
  else s

/-- `CafeWorld._add_4top_with_chairs` (src/world.py lines 122-146): four
unchecked table-cell writes, then four bounds-checked chairs mapped to the
top-left table cell. -/
def add4top (height width : Nat) (s : Cells × ChairDict) (row col : Nat) :
    Except PyErr (Cells × ChairDict) := do
  let g1 ← npSet height width s.1 row col CellVal.TABLE_4TOP
  let g2 ← npSet height width g1 row (col + 1) CellVal.TABLE_4TOP
  let g3 ← npSet height width g2 (row + 1) col CellVal.TABLE_4TOP
  let g4 ← npSet height width g3 (row + 1) (col + 1) CellVal.TABLE_4TOP
  let s1 := add4topChair height width (g4, s.2) (row - 1) col row col
  let s2 := add4topChair height width s1 (row - 1) (col + 1) row col
  let s3 := add4topChair height width s2 (row + 2) col row col
  let s4 := add4topChair height width s3 (row + 2) (col + 1) row col
  pure s4

/-- The state built by `CafeWorld.__init__` before `_identify_zones`. -/
structure WorldState where
  height : Nat
  width : Nat
  cells : Cells
  chair_to_table : ChairDict
  deriving DecidableEq, Repr

/-- `CafeWorld._create_layout` (src/world.py lines 54-103), with the small
literal `for` loops (entrance columns 6..9, counter columns 6..7, laptop
bar rows 6..8) unrolled into their individual assignments. -/
def createLayout (width height : Nat) : Except PyErr WorldState := do
  -- self.grid.fill(CellType.WALL.value)
  let g0 : Cells := List.replicate height (List.replicate width CellVal.WALL)
  -- main floor: self._add_rectangle(1, 1, 10, 13, CellType.EMPTY)
  let g1 := addRectangle height width g0 1 1 10 13 CellVal.EMPTY
  -- entrance row 9, columns 6..9
  let g2 ← npSet height width g1 9 6 CellVal.ENTRANCE
  let g3 ← npSet height width g2 9 7 CellVal.ENTRANCE
  let g4 ← npSet height width g3 9 8 CellVal.ENTRANCE
  let g5 ← npSet height width g4 9 9 CellVal.ENTRANCE
  -- counter row 1, columns 6..7
  let g6 ← npSet height width g5 1 6 CellVal.COUNTER
  let g7 ← npSet height width g6 1 7 CellVal.COUNTER
  -- pickup shelf: self._add_rectangle(1, 4, 1, 1, PICKUP_SHELF)
  let g8 := addRectangle height width g7 1 4 1 1 CellVal.PICKUP_SHELF
  -- kitchen: self._add_rectangle(1, 12, 3, 3, KITCHEN)
  let g9 := addRectangle height width g8 1 12 3 3 CellVal.KITCHEN
  -- laptop bar rows 6..8: column 1 is bar counter, column 2 a chair
  let g10 ← npSet height width g9 6 1 CellVal.LAPTOP_BAR_COUNTER
  let g11 ← npSet height width g10 6 2 CellVal.CHAIR
  let g12 ← npSet height width g11 7 1 CellVal.LAPTOP_BAR_COUNTER
  let g13 ← npSet height width g12 7 2 CellVal.CHAIR
  let g14 ← npSet height width g13 8 1 CellVal.LAPTOP_BAR_COUNTER
  let g15 ← npSet height width g14 8 2 CellVal.CHAIR
  -- 2-top tables
  let s1 ← add2top height width (g15, []) 3 1
  let s2 ← add2top height width s1 3 3
  let s3 ← add2top height width s2 7 4
  -- 4-top tables
  let s4 ← add4top height width s3 3 9
  let s5 ← add4top height width s4 7 9
  let s6 ← add4top height width s5 7 12
  pure { height := height, width := width, cells := s6.1, chair_to_table := s6.2 }

/-- Read the cell value at an integer position (total; every verified use
is guarded by a bounds check, matching the Python code). -/
def cellAt (s : WorldState) (p : Pos) : Nat :=
  get2d s.cells p.1.toNat p.2.toNat

/-- The zone catalog plus the walkable set, the fields populated by
`CafeWorld._identify_zones` (src/world.py lines 156-202). -/
structure Zones where
  entrance : List Pos := []
  counter : List Pos := []
  queue : List Pos := []
  pickup_shelf : List Pos := []
  laptop_bar_counter : List Pos := []
  chairs : List Pos := []
  tables_2top : List Pos := []
  tables_4top : List Pos := []
  aisles : List Pos := []
  kitchen : List Pos := []
  open_space : List Pos := []
  walkable_cells : List Pos := []
  deriving DecidableEq, Repr

/-- The body of the scan loop in `_identify_zones`: the `elif` chain that
classifies one cell into a zone and, for entrance / aisle / empty cells,
adds it to the walkable set.  (The `QUEUE_ZONE` branch is commented out in
the source and therefore absent here.) -/
def zonesStep (s : WorldState) (z : Zones) (p : Pos) : Zones :=
  let cell := cellAt s p
  if cell = CellVal.ENTRANCE then
    { z with entrance := z.entrance ++ [p], walkable_cells := z.walkable_cells ++ [p] }
  else if cell = CellVal.COUNTER then
    { z with counter := z.counter ++ [p] }
  else if cell = CellVal.PICKUP_SHELF then
    { z with pickup_shelf := z.pickup_shelf ++ [p] }
  else if cell = CellVal.LAPTOP_BAR_COUNTER then
    { z with laptop_bar_counter := z.laptop_bar_counter ++ [p] }
  else if cell = CellVal.CHAIR then
    { z with chairs := z.chairs ++ [p] }
  else if cell = CellVal.TABLE_2TOP then
    { z with tables_2top := z.tables_2top ++ [p] }
  else if cell = CellVal.TABLE_4TOP then
    { z with tables_4top := z.tables_4top ++ [p] }
  else if cell = CellVal.AISLE then
    { z with aisles := z.aisles ++ [p], walkable_cells := z.walkable_cells ++ [p] }
  else if cell = CellVal.KITCHEN then
    { z with kitchen := z.kitchen ++ [p] }
  else if cell = CellVal.EMPTY then
    { z with open_space := z.open_space ++ [p], walkable_cells := z.walkable_cells ++ [p] }
  else z

/-- All grid positions in row-major order, the order in which the nested
`for r in range(height): for c in range(width)` loop visits them. -/
def rowMajor (height width : Nat) : List Pos :=
  ((List.range height).product (List.range width)).map (fun rc => intPos rc.1 rc.2)

/-- `CafeWorld._identify_zones` (src/world.py lines 156-202): scan the grid
in row-major order, classifying every cell. -/
def identifyZones (s : WorldState) : Zones :=
  (rowMajor s.height s.width).foldl (zonesStep s) {}

/-- A fully constructed `CafeWorld`: the grid state plus the zone catalog
and walkable set computed once at construction (src/world.py lines 34-52). -/
structure CafeWorld where
  state : WorldState
  zones : Zones
  deriving DecidableEq, Repr

/-- `CafeWorld.__init__(width, height)`: build the layout (which may raise
`IndexError`) and identify the zones. -/
def mkCafeWorld (width height : Nat) : Except PyErr CafeWorld :=
  (createLayout width height).map (fun s => { state := s, zones := identifyZones s })

/-- The world built with the default dimensions `CafeWorld()` = 15 x 10.
(The construction succeeds; the `getD` fallback is never taken.) -/
def defaultWorld : CafeWorld :=
  (mkCafeWorld 15 10).toOption.getD { state := ⟨0, 0, [], []⟩, zones := {} }

/-- `CafeWorld.is_walkable` (src/world.py lines 204-209): in bounds and in
the precomputed walkable set. -/
def is_walkable (w : CafeWorld) (p : Pos) : Bool :=
  decide (0 ≤ p.1 ∧ p.1 < (w.state.height : Int) ∧ 0 ≤ p.2 ∧ p.2 < (w.state.width : Int))
    && w.zones.walkable_cells.contains p

/-- `AgentType` (src/agent.py lines 5-8). -/
inductive AgentType where
  | CUSTOMER
  deriving DecidableEq, Repr

/-- `AgentStatus` (src/agent.py lines 11-21). -/
inductive AgentStatus where
  | ENTERING
  | QUEUING
  | ORDERING
  | WAITING_FOR_ORDER
  | EXITING
  | WORKING
  | MOVING_TO_QUEUE
  | MOVING_TO_PICKUP
  deriving DecidableEq, Repr

/-- `AgentStatus.value` strings. -/
def AgentStatus.value : AgentStatus → String
  | .ENTERING => "entering"
  | .QUEUING => "queuing"
  | .ORDERING => "ordering"
  | .WAITING_FOR_ORDER => "waiting_for_order"
  | .EXITING => "exiting"
  | .WORKING => "working"
  | .MOVING_TO_QUEUE => "moving_to_queue"
  | .MOVING_TO_PICKUP => "moving_to_pickup"

/-- `Action` (src/agent.py lines 24-32).  Note: the enumeration has
exactly these seven members; there is no `CUT_IN_LINE` member. -/
inductive Action where
  | MOVE
  | QUEUE
  | YIELD
  | ORDER
  | PICK_UP
  | WAIT
  | SERVE
  deriving DecidableEq, Repr

/-- `Action.value` strings. -/
def Action.value : Action → String
  | .MOVE => "move"
  | .QUEUE => "queue"
  | .YIELD => "yield"
  | .ORDER => "order"
  | .PICK_UP => "pick_up"
  | .WAIT => "wait"
  | .SERVE => "serve"

/-- The attribute table of the `Action` enumeration: exactly the members
declared in src/agent.py lines 24-32. -/
def Action.members : List (String × Action) :=
  [("MOVE", .MOVE), ("QUEUE", .QUEUE), ("YIELD", .YIELD), ("ORDER", .ORDER),
   ("PICK_UP", .PICK_UP), ("WAIT", .WAIT), ("SERVE", .SERVE)]

/-- Python attribute lookup `Action.<name>`: raises `AttributeError` when
`name` is not a member of the enumeration. -/
def Action.getattr (name : String) : Except PyErr Action :=
  match Action.members.find? (fun e => e.1 = name) with
  | some e => .ok e.2
  | none => .error .attributeError

/-- The agent state, from `Agent.__init__` (src/agent.py lines 41-58).
`speed` is a Python float that is only ever assigned the constant `1.0`
and never used in any computation, so it is carried as a number. -/
structure Agent where
  agent_id : String
  agent_type : AgentType
  speed : Nat
  position : Pos
  status : AgentStatus
  target_position : Option Pos
  queue_position : Option Nat
  order_ready : Bool
  patience : Nat
  deriving DecidableEq, Repr

/-- `Customer.__init__` / `Agent.__init__` (src/agent.py lines 41-58 and
105-106): a fresh customer is ENTERING with no target. -/
def Customer.create (agent_id : String) (position : Pos) : Agent :=
  { agent_id := agent_id
    agent_type := AgentType.CUSTOMER
    speed := 1
    position := position
    status := AgentStatus.ENTERING
    target_position := none
    queue_position := none
    order_ready := false
    patience := 100 }

/-- `Agent.move_towards` (src/agent.py lines 61-89): returns the new
position and the moved flag (the Python method mutates `self.position` and
returns the flag). -/
def move_towards (pos target : Pos) (world : CafeWorld) : Pos × Bool :=
  if pos = target then (pos, false)
  else
    let next_pos : Pos :=
      if pos.1 < target.1 ∧ is_walkable world (pos.1 + 1, pos.2) = true then
        (pos.1 + 1, pos.2)
      else if pos.1 > target.1 ∧ is_walkable world (pos.1 - 1, pos.2) = true then
        (pos.1 - 1, pos.2)
      else if pos.2 < target.2 ∧ is_walkable world (pos.1, pos.2 + 1) = true then
        (pos.1, pos.2 + 1)
      else if pos.2 > target.2 ∧ is_walkable world (pos.1, pos.2 - 1) = true then
        (pos.1, pos.2 - 1)
      else pos
    if next_pos ≠ pos then (next_pos, true) else (pos, false)

/-- `counter_zone[0][0]` in `Customer.update` (src/agent.py line 122); the
default is never taken because the access is guarded by `if counter_zone`. -/
def counterRow (world : CafeWorld) : Int :=
  (world.zones.counter.headD ((0 : Int), (0 : Int))).1

/-- `queue_spots` in `Customer.update` (src/agent.py line 123): open-space
cells strictly below the counter row, columns 4..8. -/
def queueSpots (world : CafeWorld) : List Pos :=
  world.zones.open_space.filter (fun p => counterRow world < p.1 ∧ 4 ≤ p.2 ∧ p.2 ≤ 8)

/-- A violation record, the dict appended by `Norm.check_violation`
(src/norm.py lines 47-53). -/
structure ViolationRecord where
  agent_id : String
  action : Option String
  status : String
  position : Pos
  timestep : Nat
  deriving DecidableEq, Repr

/-- `Norm` (src/norm.py lines 6-14): only state is the violation log. -/
structure Norm where
  violation_log : List ViolationRecord
  deriving DecidableEq, Repr

/-- `Customer.update` (src/agent.py lines 108-154).  The Python method
mutates `self` (only `target_position` and `status`) and returns an
action; it reads but never writes `queue`, so the embedding returns the
updated customer, the queue after the call, and the returned action. -/
def Customer.update (self : Agent) (world : CafeWorld) (queue : List Agent)
    (_norm : Norm) : Agent × List Agent × Action :=
  if self.status = AgentStatus.ENTERING then
    -- set target to the first free queue spot in front of the counter
    let self1 :=
      if world.zones.counter ≠ [] ∧ self.target_position = none then
        let spots := queueSpots world
        if spots ≠ [] then
          let occupied := queue.map (fun a => a.position)
          match spots.find? (fun p => !(occupied.contains p)) with
          | some p => { self with target_position := some p }
          | none => { self with target_position := spots.getLast? }
        else self
      else self
    match self1.target_position with
    | some _ => ({ self1 with status := AgentStatus.MOVING_TO_QUEUE }, queue, Action.MOVE)
    | none => (self1, queue, Action.WAIT)
  else if self.status = AgentStatus.MOVING_TO_QUEUE then
    if self.target_position ≠ none ∧ self.target_position ≠ some self.position then
      (self, queue, Action.MOVE)
    else
      ({ self with status := AgentStatus.QUEUING }, queue, Action.QUEUE)
  else if self.status = AgentStatus.QUEUING then
    (self, queue, Action.WAIT)
  else
    (self, queue, Action.WAIT)

/-- `Norm.is_valid_action` (src/norm.py lines 16-34).  The comparison
`action == Action.CUT_IN_LINE` first evaluates the attribute lookup
`Action.CUT_IN_LINE`. -/
def is_valid_action (_agent : Agent) (action : Action) (_queue : List Agent) :
    Except PyErr Bool := do
  let cutInLine ← Action.getattr ("CUT_IN_LINE")
  if action = cutInLine then
    return false
  return true

/-- `Norm.check_violation` (src/norm.py lines 36-55): returns the flag and
the norm after the call (the log grows by one record when invalid). -/
def Norm.check_violation (self : Norm) (agent : Agent) (action : Action)
    (queue : List Agent) : Except PyErr (Bool × Norm) := do
  let is_valid ← is_valid_action agent action queue
  let self2 :=
    if is_valid = false then
      { self with violation_log := self.violation_log ++
          [{ agent_id := agent.agent_id
             action := some (Action.value action)
             status := AgentStatus.value agent.status
             position := agent.position
             timestep := self.violation_log.length }] }
    else self
  pure (!is_valid, self2)



/-! ## Helper lemmas -/

/-- `List.find?` returns the first element satisfying the predicate: the
list splits at the found element and everything before it fails the
predicate. -/
theorem find?_eq_some_split {α : Type} (f : α → Bool) :
    ∀ (l : List α) (a : α), l.find? f = some a →
      ∃ l1 l2, l = l1 ++ a :: l2 ∧ f a = true ∧ ∀ b ∈ l1, f b = false := by
  intro l
  induction l with
  | nil => intro a h; simp [List.find?] at h
  | cons x xs ih =>
    intro a h
    by_cases hx : f x = true
    · rw [List.find?_cons_of_pos _ hx] at h
      obtain rfl : x = a := by injection h
      exact ⟨[], xs, rfl, hx, by simp⟩
    · rw [List.find?_cons_of_neg _ hx] at h
      obtain ⟨l1, l2, hsplit, hfa, hall⟩ := ih a h
      refine ⟨x :: l1, l2, by rw [hsplit]; rfl, hfa, ?_⟩
      intro b hb
      rcases List.mem_cons.mp hb with rfl | hb
      · exact Bool.not_eq_true _ ▸ hx
      · exact hall b hb

/-- Membership in the row-major enumeration of the grid is exactly the
bounds check. -/
theorem mem_rowMajor (height width : Nat) (p : Pos) :
    p ∈ rowMajor height width ↔
      0 ≤ p.1 ∧ p.1 < (height : Int) ∧ 0 ≤ p.2 ∧ p.2 < (width : Int) := by
  obtain ⟨a, b⟩ := p
  simp only [rowMajor, intPos, List.product, List.mem_map, List.mem_flatMap,
    List.mem_range, Prod.ext_iff, Prod.mk.injEq]
  constructor
  · rintro ⟨⟨r, c⟩, ⟨r2, hr2, c2, hc2, hr, hc⟩, ha, hb⟩
    subst hr; subst hc; subst ha; subst hb
    omega
  · rintro ⟨h1, h2, h3, h4⟩
    exact ⟨(a.toNat, b.toNat), ⟨a.toNat, by omega, b.toNat, by omega, rfl, rfl⟩,
      by omega, by omega⟩

set_option maxHeartbeats 1000000 in
/-- One classification step adds `q` to the walkable set exactly when its
cell is empty, entrance or aisle; it never removes anything. -/
theorem zonesStep_walkable (s : WorldState) (z : Zones) (q p : Pos) :
    p ∈ (zonesStep s z q).walkable_cells ↔
      p ∈ z.walkable_cells ∨
        (p = q ∧ cellAt s q ∈ [CellVal.EMPTY, CellVal.ENTRANCE, CellVal.AISLE]) := by
  simp only [zonesStep]
  split_ifs with h1 h2 h3 h4 h5 h6 h7 h8 h9 h10
  · rw [h1]; simp [CellVal.ENTRANCE, CellVal.EMPTY, CellVal.AISLE, List.mem_append]
  · rw [h2]; simp [CellVal.COUNTER, CellVal.ENTRANCE, CellVal.EMPTY, CellVal.AISLE]
  · rw [h3]; simp [CellVal.PICKUP_SHELF, CellVal.ENTRANCE, CellVal.EMPTY, CellVal.AISLE]
  · rw [h4]
    simp [CellVal.LAPTOP_BAR_COUNTER, CellVal.ENTRANCE, CellVal.EMPTY, CellVal.AISLE]
  · rw [h5]; simp [CellVal.CHAIR, CellVal.ENTRANCE, CellVal.EMPTY, CellVal.AISLE]
  · rw [h6]; simp [CellVal.TABLE_2TOP, CellVal.ENTRANCE, CellVal.EMPTY, CellVal.AISLE]
  · rw [h7]; simp [CellVal.TABLE_4TOP, CellVal.ENTRANCE, CellVal.EMPTY, CellVal.AISLE]
  · rw [h8]; simp [CellVal.AISLE, CellVal.ENTRANCE, CellVal.EMPTY, List.mem_append]
  · rw [h9]; simp [CellVal.KITCHEN, CellVal.ENTRANCE, CellVal.EMPTY, CellVal.AISLE]
  · rw [h10]; simp [CellVal.EMPTY, CellVal.ENTRANCE, CellVal.AISLE, List.mem_append]
  · simp only [List.mem_cons, List.not_mem_nil, or_false]
    constructor
    · exact Or.inl
    · rintro (hz | ⟨rfl, hv | hv | hv⟩)
      · exact hz
      · exact absurd hv h10
      · exact absurd hv h1
      · exact absurd hv h8

/-- Scanning a list of positions accumulates into the walkable set exactly
the scanned positions whose cell is empty, entrance or aisle. -/
theorem foldl_zonesStep_walkable (s : WorldState) :
    ∀ (ps : List Pos) (z : Zones) (p : Pos),
      p ∈ (ps.foldl (zonesStep s) z).walkable_cells ↔
        p ∈ z.walkable_cells ∨
          (p ∈ ps ∧ cellAt s p ∈ [CellVal.EMPTY, CellVal.ENTRANCE, CellVal.AISLE]) := by
  intro ps
  induction ps with
  | nil => simp
  | cons q ps ih =>
    intro z p
    rw [List.foldl_cons, ih, zonesStep_walkable]
    constructor
    · rintro ((hz | ⟨rfl, hv⟩) | ⟨hp, hv⟩)
      · exact Or.inl hz
      · exact Or.inr ⟨List.mem_cons_self .., hv⟩
      · exact Or.inr ⟨List.mem_cons_of_mem _ hp, hv⟩
    · rintro (hz | ⟨hp, hv⟩)
      · exact Or.inl (Or.inl hz)
      · rcases List.mem_cons.mp hp with rfl | hp
        · exact Or.inl (Or.inr ⟨rfl, hv⟩)
        · exact Or.inr ⟨hp, hv⟩

/-! ## Claims about the norm engine (C1, C2) -/

/-- C2: for every agent, every member of the `Action` enumeration, and
every queue, `Norm.is_valid_action` raises `AttributeError` instead of
returning a boolean, because it evaluates `Action.CUT_IN_LINE` and the
`Action` enumeration defines no `CUT_IN_LINE` member; consequently
`Norm.check_violation` also raises on every call, so the violation log is
never appended to (no post-call `Norm` state is ever produced). -/
theorem is_valid_action_always_raises (n : Norm) (a : Agent) (act : Action)
    (q : List Agent) :
    is_valid_action a act q = Except.error PyErr.attributeError ∧
      n.check_violation a act q = Except.error PyErr.attributeError :=
  ⟨rfl, rfl⟩

/-- C2 witness: the theorem applied at a concrete call. -/
theorem is_valid_action_always_raises_witness :
    is_valid_action (Customer.create ("cust_a") (intPos 9 6)) Action.MOVE []
        = Except.error PyErr.attributeError ∧
      Norm.check_violation ⟨[]⟩ (Customer.create ("cust_a") (intPos 9 6)) Action.MOVE []
        = Except.error PyErr.attributeError :=
  is_valid_action_always_raises ⟨[]⟩ (Customer.create ("cust_a") (intPos 9 6)) Action.MOVE []

/-! ## Walkability (C5) -/

/-- In any successfully constructed world, the walkable set holds exactly
the in-bounds positions whose cell is empty, entrance or aisle. -/
theorem mem_walkable_of_built (width height : Nat) (cafe : CafeWorld)
    (hc : mkCafeWorld width height = Except.ok cafe) (p : Pos) :
    p ∈ cafe.zones.walkable_cells ↔
      (0 ≤ p.1 ∧ p.1 < (cafe.state.height : Int) ∧ 0 ≤ p.2 ∧ p.2 < (cafe.state.width : Int)) ∧
        cellAt cafe.state p ∈ [CellVal.EMPTY, CellVal.ENTRANCE, CellVal.AISLE] := by
  unfold mkCafeWorld at hc
  cases hcl : createLayout width height with
  | error e => rw [hcl] at hc; simp [Except.map] at hc
  | ok s =>
    rw [hcl] at hc
    simp only [Except.map, Except.ok.injEq] at hc
    subst hc
    simp only []
    rw [identifyZones, foldl_zonesStep_walkable, mem_rowMajor]
    simp

/-- C5: `is_walkable p` is true iff `p` is in bounds and the cell at `p`
is of type EMPTY, ENTRANCE or AISLE (the walkable set computed once at
construction); in particular wall, counter, pickup-shelf, chair, table,
kitchen and laptop-bar cells are never walkable. -/
theorem is_walkable_iff_open_cell (width height : Nat) (cafe : CafeWorld)
    (hc : mkCafeWorld width height = Except.ok cafe) (p : Pos) :
    (is_walkable cafe p = true ↔
      (0 ≤ p.1 ∧ p.1 < (cafe.state.height : Int) ∧ 0 ≤ p.2 ∧ p.2 < (cafe.state.width : Int)) ∧
        cellAt cafe.state p ∈ [CellVal.EMPTY, CellVal.ENTRANCE, CellVal.AISLE]) ∧
    (cellAt cafe.state p ∈ [CellVal.WALL, CellVal.COUNTER, CellVal.PICKUP_SHELF,
        CellVal.CHAIR, CellVal.TABLE_2TOP, CellVal.TABLE_4TOP, CellVal.KITCHEN,
        CellVal.LAPTOP_BAR_COUNTER] → is_walkable cafe p = false) := by
  have hmem := mem_walkable_of_built width height cafe hc p
  have hiff : is_walkable cafe p = true ↔
      (0 ≤ p.1 ∧ p.1 < (cafe.state.height : Int) ∧ 0 ≤ p.2 ∧ p.2 < (cafe.state.width : Int)) ∧
        cellAt cafe.state p ∈ [CellVal.EMPTY, CellVal.ENTRANCE, CellVal.AISLE] := by
    rw [is_walkable, Bool.and_eq_true, decide_eq_true_eq]
    rw [List.contains, List.elem_eq_mem, decide_eq_true_eq, hmem]
    constructor
    · rintro ⟨_, _, hv⟩; tauto
    · rintro ⟨hb, hv⟩; exact ⟨hb, hb, hv⟩
  refine ⟨hiff, ?_⟩
  intro hbad
  cases hw : is_walkable cafe p with
  | false => rfl
  | true =>
    exfalso
    have hv := (hiff.mp hw).2
    simp only [List.mem_cons, List.not_mem_nil, or_false, CellVal.EMPTY, CellVal.ENTRANCE,
      CellVal.AISLE, CellVal.WALL, CellVal.COUNTER, CellVal.PICKUP_SHELF, CellVal.CHAIR,
      CellVal.TABLE_2TOP, CellVal.TABLE_4TOP, CellVal.KITCHEN,
      CellVal.LAPTOP_BAR_COUNTER] at hv hbad
    omega

/-- C5 witness: the characterization applied in the default 15 x 10 world
at the in-bounds open-space position (2, 4). -/
theorem is_walkable_iff_open_cell_witness :
    mkCafeWorld 15 10 = Except.ok defaultWorld ∧
      ((is_walkable defaultWorld (intPos 2 4) = true ↔
        (0 ≤ (intPos 2 4).1 ∧ (intPos 2 4).1 < (defaultWorld.state.height : Int) ∧
          0 ≤ (intPos 2 4).2 ∧ (intPos 2 4).2 < (defaultWorld.state.width : Int)) ∧
          cellAt defaultWorld.state (intPos 2 4) ∈
            [CellVal.EMPTY, CellVal.ENTRANCE, CellVal.AISLE]) ∧
      (cellAt defaultWorld.state (intPos 2 4) ∈ [CellVal.WALL, CellVal.COUNTER,
          CellVal.PICKUP_SHELF, CellVal.CHAIR, CellVal.TABLE_2TOP, CellVal.TABLE_4TOP,
          CellVal.KITCHEN, CellVal.LAPTOP_BAR_COUNTER] →
        is_walkable defaultWorld (intPos 2 4) = false)) :=
  ⟨by rfl, is_walkable_iff_open_cell 15 10 defaultWorld (by rfl) (intPos 2 4)⟩

/-! ## Greedy movement (C4) -/

/-- C4 (amended): `move_towards` moves at most one orthogonal step per
call, with strict axis priority row before column regardless of the delta
magnitudes: it first tries the row step toward the target if the row delta
is nonzero and that step is walkable, else falls through to the column
axis; when no candidate step is walkable the position is unchanged and the
call returns `false` (and, being a total function, it never raises). -/
theorem move_towards_row_first (world : CafeWorld) (pos target : Pos) :
    ((move_towards pos target world).1 = pos ∧ (move_towards pos target world).2 = false ∨
      ((move_towards pos target world).1.1 - pos.1).natAbs +
        ((move_towards pos target world).1.2 - pos.2).natAbs = 1 ∧
        (move_towards pos target world).2 = true) ∧
    (pos ≠ target → pos.1 < target.1 → is_walkable world (pos.1 + 1, pos.2) = true →
      move_towards pos target world = ((pos.1 + 1, pos.2), true)) ∧
    (pos ≠ target → pos.1 > target.1 → is_walkable world (pos.1 - 1, pos.2) = true →
      move_towards pos target world = ((pos.1 - 1, pos.2), true)) ∧
    (pos ≠ target →
      (pos.1 < target.1 → is_walkable world (pos.1 + 1, pos.2) = false) →
      (pos.1 > target.1 → is_walkable world (pos.1 - 1, pos.2) = false) →
      pos.2 < target.2 → is_walkable world (pos.1, pos.2 + 1) = true →
      move_towards pos target world = ((pos.1, pos.2 + 1), true)) ∧
    (pos ≠ target →
      (pos.1 < target.1 → is_walkable world (pos.1 + 1, pos.2) = false) →
      (pos.1 > target.1 → is_walkable world (pos.1 - 1, pos.2) = false) →
      (pos.2 < target.2 → is_walkable world (pos.1, pos.2 + 1) = false) →
      (pos.2 > target.2 → is_walkable world (pos.1, pos.2 - 1) = false) →
      move_towards pos target world = (pos, false)) := by
  obtain ⟨a, b⟩ := pos
  refine ⟨?_, ?_, ?_, ?_, ?_⟩
  · simp only [move_towards]
    split_ifs <;> simp_all [Prod.ext_iff]
  · intro hne h1 h2
    simp only [move_towards, if_neg hne, h1, h2, true_and, if_true]
    rw [if_pos (show ((a + 1, b) : Pos) ≠ (a, b) by intro hk; rw [Prod.mk.injEq] at hk; omega)]
  · intro hne h1 h2
    have hno : ¬((a : Int) < target.1 ∧ is_walkable world (a + 1, b) = true) := by omega
    simp only [move_towards, if_neg hne, if_neg hno, h1, h2, true_and, if_true]
    rw [if_pos (show ((a - 1, b) : Pos) ≠ (a, b) by intro hk; rw [Prod.mk.injEq] at hk; omega)]
  · intro hne hr1 hr2 h1 h2
    have hno1 : ¬((a : Int) < target.1 ∧ is_walkable world (a + 1, b) = true) := by
      rintro ⟨hA, hB⟩; rw [hr1 hA] at hB; exact absurd hB (by simp)
    have hno2 : ¬((a : Int) > target.1 ∧ is_walkable world (a - 1, b) = true) := by
      rintro ⟨hA, hB⟩; rw [hr2 hA] at hB; exact absurd hB (by simp)
    simp only [move_towards, if_neg hne, if_neg hno1, if_neg hno2, h1, h2, true_and, if_true]
    rw [if_pos (show ((a, b + 1) : Pos) ≠ (a, b) by intro hk; rw [Prod.mk.injEq] at hk; omega)]
  · intro hne hr1 hr2 hc1 hc2
    have hno1 : ¬((a : Int) < target.1 ∧ is_walkable world (a + 1, b) = true) := by
      rintro ⟨hA, hB⟩; rw [hr1 hA] at hB; exact absurd hB (by simp)
    have hno2 : ¬((a : Int) > target.1 ∧ is_walkable world (a - 1, b) = true) := by
      rintro ⟨hA, hB⟩; rw [hr2 hA] at hB; exact absurd hB (by simp)
    have hno3 : ¬((b : Int) < target.2 ∧ is_walkable world (a, b + 1) = true) := by
      rintro ⟨hA, hB⟩; rw [hc1 hA] at hB; exact absurd hB (by simp)
    have hno4 : ¬((b : Int) > target.2 ∧ is_walkable world (a, b - 1) = true) := by
      rintro ⟨hA, hB⟩; rw [hc2 hA] at hB; exact absurd hB (by simp)
    simp only [move_towards, if_neg hne, if_neg hno1, if_neg hno2, if_neg hno3, if_neg hno4]
    simp

/-- C4 witness: the row-priority clause applied at a walkable concrete
step in the default world. -/
theorem move_towards_row_first_witness :
    (intPos 5 5 ≠ intPos 6 11) ∧ ((intPos 5 5).1 < (intPos 6 11).1) ∧
      is_walkable defaultWorld ((intPos 5 5).1 + 1, (intPos 5 5).2) = true ∧
      move_towards (intPos 5 5) (intPos 6 11) defaultWorld =
        (((intPos 5 5).1 + 1, (intPos 5 5).2), true) :=
  ⟨by decide, by decide, by decide,
    (move_towards_row_first defaultWorld (intPos 5 5) (intPos 6 11)).2.1
      (by decide) (by decide) (by decide)⟩

/-- C4 counterexample: at (5,5) targeting (6,11) in the default world, the
column delta (6) is strictly larger in magnitude than the row delta (1)
and the column step to (5,6) is walkable, yet the call steps along the row
axis to (6,5): movement is not biased toward reducing the larger-magnitude
coordinate delta first. -/
theorem move_towards_ignores_delta_magnitude :
    ((11 - 5 : Int).natAbs > (6 - 5 : Int).natAbs) ∧
      is_walkable defaultWorld (intPos 5 6) = true ∧
      move_towards (intPos 5 5) (intPos 6 11) defaultWorld = (intPos 6 5, true) ∧
      intPos 6 5 ≠ intPos 5 6 := by decide

/-! ## Customer decision procedure (C3, C6, C7, C9) -/

/-- C3: an ENTERING customer with no target computes its target among the
queue-spot candidates (open-space cells below the counter row, columns
4..8) as the first candidate not occupied by any agent currently in the
queue, falling back to the last candidate when all are occupied; once the
target exists the status becomes MOVING_TO_QUEUE and the call returns
MOVE. -/
theorem entering_picks_first_free_spot (world : CafeWorld) (self : Agent)
    (queue : List Agent) (norm : Norm)
    (hs : self.status = AgentStatus.ENTERING)
    (ht : self.target_position = none)
    (hc : world.zones.counter ≠ [])
    (hq : queueSpots world ≠ []) :
    (Customer.update self world queue norm).2.2 = Action.MOVE ∧
    (Customer.update self world queue norm).1.status = AgentStatus.MOVING_TO_QUEUE ∧
    ∃ t, (Customer.update self world queue norm).1.target_position = some t ∧
      ((∃ l1 l2, queueSpots world = l1 ++ t :: l2 ∧
          t ∉ queue.map (fun a => a.position) ∧
          ∀ b ∈ l1, b ∈ queue.map (fun a => a.position)) ∨
        ((∀ b ∈ queueSpots world, b ∈ queue.map (fun a => a.position)) ∧
          (queueSpots world).getLast? = some t)) := by
  cases hf : (queueSpots world).find?
      (fun p => !((queue.map (fun a => a.position)).contains p)) with
  | some p =>
    have hupd : Customer.update self world queue norm =
        ({ self with target_position := some p, status := AgentStatus.MOVING_TO_QUEUE },
          queue, Action.MOVE) := by
      simp only [Customer.update]
      rw [if_pos hs, if_pos (And.intro hc ht), if_pos hq, hf]
    rw [hupd]
    refine ⟨rfl, rfl, p, rfl, Or.inl ?_⟩
    obtain ⟨l1, l2, hsplit, hfa, hall⟩ := find?_eq_some_split _ _ _ hf
    refine ⟨l1, l2, hsplit, ?_, ?_⟩
    · simp only [List.contains] at hfa
      simpa using hfa
    · intro b hb
      have hcb := hall b hb
      simp only [List.contains] at hcb
      simpa using hcb
  | none =>
    obtain ⟨t, hgl⟩ := Option.isSome_iff_exists.mp
      (by rw [List.getLast?_isSome]; exact hq)
    have hupd : Customer.update self world queue norm =
        ({ self with target_position := some t, status := AgentStatus.MOVING_TO_QUEUE },
          queue, Action.MOVE) := by
      simp only [Customer.update]
      rw [if_pos hs, if_pos (And.intro hc ht), if_pos hq, hf, hgl]
    rw [hupd]
    refine ⟨rfl, rfl, t, rfl, Or.inr ⟨?_, hgl⟩⟩
    intro b hb
    have hcb := List.find?_eq_none.mp hf b hb
    simp only [List.contains] at hcb
    simpa using hcb

/-- C3 witness: a fresh customer at the entrance of the default world with
an empty queue; it targets the first queue spot (2, 4). -/
theorem entering_picks_first_free_spot_witness :
    (Customer.create ("cust_w") (intPos 9 6)).status = AgentStatus.ENTERING ∧
      (Customer.create ("cust_w") (intPos 9 6)).target_position = none ∧
      defaultWorld.zones.counter ≠ [] ∧ queueSpots defaultWorld ≠ [] ∧
      ((Customer.update (Customer.create ("cust_w") (intPos 9 6)) defaultWorld [] ⟨[]⟩).2.2
          = Action.MOVE ∧
        (Customer.update (Customer.create ("cust_w") (intPos 9 6)) defaultWorld [] ⟨[]⟩).1.status
          = AgentStatus.MOVING_TO_QUEUE ∧
        ∃ t, (Customer.update (Customer.create ("cust_w") (intPos 9 6)) defaultWorld []
            ⟨[]⟩).1.target_position = some t ∧
          ((∃ l1 l2, queueSpots defaultWorld = l1 ++ t :: l2 ∧
              t ∉ ([] : List Agent).map (fun a => a.position) ∧
              ∀ b ∈ l1, b ∈ ([] : List Agent).map (fun a => a.position)) ∨
            ((∀ b ∈ queueSpots defaultWorld, b ∈ ([] : List Agent).map (fun a => a.position)) ∧
              (queueSpots defaultWorld).getLast? = some t))) :=
  ⟨rfl, rfl, by decide, by decide,
    entering_picks_first_free_spot defaultWorld (Customer.create ("cust_w") (intPos 9 6))
      [] ⟨[]⟩ rfl rfl (by decide) (by decide)⟩

/-- C6: `Customer.update` mutates at most `target_position` and `status`:
the position and every other agent field are unchanged, and the queue
(list and members) is returned exactly as passed — the source reads the
queue only in the `occupied` comprehension and never writes it. -/
theorem update_frame (self : Agent) (world : CafeWorld) (queue : List Agent)
    (norm : Norm) :
    (Customer.update self world queue norm).2.1 = queue ∧
    (Customer.update self world queue norm).1.position = self.position ∧
    (Customer.update self world queue norm).1.agent_id = self.agent_id ∧
    (Customer.update self world queue norm).1.agent_type = self.agent_type ∧
    (Customer.update self world queue norm).1.speed = self.speed ∧
    (Customer.update self world queue norm).1.queue_position = self.queue_position ∧
    (Customer.update self world queue norm).1.order_ready = self.order_ready ∧
    (Customer.update self world queue norm).1.patience = self.patience := by
  simp only [Customer.update]
  split_ifs <;> (repeat' split) <;> simp

/-- C7 (amended): a Customer whose status is ORDERING (or any status other
than ENTERING, MOVING_TO_QUEUE and QUEUING) falls through the
state-machine dispatch: `update` returns the customer unchanged and
proposes WAIT — the later FSM stages (ORDER, pickup, exit) are not
implemented in `Customer.update`. -/
theorem ordering_status_returns_wait (self : Agent) (world : CafeWorld)
    (queue : List Agent) (norm : Norm)
    (hs : self.status = AgentStatus.ORDERING) :
    Customer.update self world queue norm = (self, queue, Action.WAIT) := by
  simp [Customer.update, hs]

/-- C7 witness: the amended claim applied to a concrete ORDERING customer. -/
theorem ordering_status_returns_wait_witness :
    ({ Customer.create ("cust_c") (intPos 5 5) with
        status := AgentStatus.ORDERING } : Agent).status = AgentStatus.ORDERING ∧
      Customer.update { Customer.create ("cust_c") (intPos 5 5) with
          status := AgentStatus.ORDERING } defaultWorld [] ⟨[]⟩
        = ({ Customer.create ("cust_c") (intPos 5 5) with
            status := AgentStatus.ORDERING }, [], Action.WAIT) :=
  ⟨rfl, ordering_status_returns_wait _ defaultWorld [] ⟨[]⟩ rfl⟩

/-- C7 counterexample: a concrete Customer in ORDERING is proposed WAIT by
`update`, and WAIT is not ORDER — `update` does not propose the ORDER
action claimed for the ORDERING stage. -/
theorem ordering_customer_not_given_order_action :
    (Customer.update { Customer.create ("cust_d") (intPos 5 5) with
        status := AgentStatus.ORDERING } defaultWorld [] ⟨[]⟩).2.2 = Action.WAIT ∧
      Action.WAIT ≠ Action.ORDER :=
  ⟨rfl, by decide⟩

/-- C9: customer A (created first) and customer B would both initially
target the same first free queue spot (2,4); once A has claimed that spot
(A sits at (2,4) with status QUEUING and is a member of the queue), B's
computed target falls to the next free spot (2,5), a distinct cell. -/
theorem two_customers_get_distinct_spots (idA idB : String) (pA pB : Pos)
    (n1 n2 n3 : Norm) :
    (Customer.update (Customer.create idA pA) defaultWorld [] n1).1.target_position
        = some (intPos 2 4) ∧
    (Customer.update (Customer.create idB pB) defaultWorld [] n2).1.target_position
        = some (intPos 2 4) ∧
    (Customer.update (Customer.create idB pB) defaultWorld
        [{ (Customer.update (Customer.create idA pA) defaultWorld [] n1).1 with
            position := intPos 2 4, status := AgentStatus.QUEUING }]
        n3).1.target_position = some (intPos 2 5) ∧
    intPos 2 4 ≠ intPos 2 5 :=
  ⟨rfl, rfl, rfl, by decide⟩

/-! ## Chair-to-table mapping (C8) -/

/-- C8 counterexample: the laptop-bar chair at (6,2) is a CHAIR cell of
the constructed default world, but `chair_to_table` has no entry for it —
`chair_to_table[(6,2)]` does not resolve to any table (a `KeyError` in
Python), so not every CHAIR cell resolves to exactly one table. -/
theorem laptop_bar_chair_unmapped :
    cellAt defaultWorld.state (intPos 6 2) = CellVal.CHAIR ∧
      dictGet defaultWorld.state.chair_to_table (intPos 6 2) = none := by decide

/-- C8 (amended): in the constructed default world, every entry of
`chair_to_table` maps a CHAIR cell to a table cell, the keys are distinct
(so each mapped chair resolves to exactly one table), and every table
position referenced has at least one chair mapped to it; however the three
laptop-bar chairs (6,2), (7,2), (8,2) are CHAIR cells with no entry in the
mapping. -/
theorem chair_to_table_mapped_chairs_correct :
    (∀ e ∈ defaultWorld.state.chair_to_table,
        cellAt defaultWorld.state e.1 = CellVal.CHAIR ∧
          (cellAt defaultWorld.state e.2 = CellVal.TABLE_2TOP ∨
            cellAt defaultWorld.state e.2 = CellVal.TABLE_4TOP)) ∧
    (defaultWorld.state.chair_to_table.map (fun e => e.1)).Nodup ∧
    (∀ t ∈ defaultWorld.state.chair_to_table.map (fun e => e.2),
        ∃ c ∈ defaultWorld.state.chair_to_table.map (fun e => e.1),
          dictGet defaultWorld.state.chair_to_table c = some t) ∧
    (∀ p ∈ [intPos 6 2, intPos 7 2, intPos 8 2],
        cellAt defaultWorld.state p = CellVal.CHAIR ∧
          dictGet defaultWorld.state.chair_to_table p = none) := by decide

/-- C8 witness: the per-entry clause applied to the concrete entry mapping
chair (2,1) to table (3,1). -/
theorem chair_to_table_mapped_chairs_correct_witness :
    (intPos 2 1, intPos 3 1) ∈ defaultWorld.state.chair_to_table ∧
      (cellAt defaultWorld.state (intPos 2 1) = CellVal.CHAIR ∧
        (cellAt defaultWorld.state (intPos 3 1) = CellVal.TABLE_2TOP ∨
          cellAt defaultWorld.state (intPos 3 1) = CellVal.TABLE_4TOP)) :=
  ⟨by decide,
    chair_to_table_mapped_chairs_correct.1 (intPos 2 1, intPos 3 1) (by decide)⟩

/-! ## Layout construction and grid dimensions (C10) -/

/-- Modelled from the spec: the footprint of "the fixed furniture layout"
— every cell the layout code intends to furnish (entrance, counter, pickup
shelf, kitchen, laptop bar, tables and their chairs), at its full default
extent.  This spec-side definition is used only to state what "dimensions
too small to fit the fixed furniture layout" means; the grid construction
itself is `createLayout`. -/
def furnitureFootprint : List Pos :=
  -- entrance (row 9, columns 6..9)
  [intPos 9 6, intPos 9 7, intPos 9 8, intPos 9 9,
   -- counter (row 1, columns 6..7)
   intPos 1 6, intPos 1 7,
   -- pickup shelf
   intPos 1 4,
   -- kitchen (rows 1..3, columns 12..14)
   intPos 1 12, intPos 1 13, intPos 1 14, intPos 2 12, intPos 2 13, intPos 2 14,
   intPos 3 12, intPos 3 13, intPos 3 14,
   -- laptop bar (rows 6..8, columns 1..2)
   intPos 6 1, intPos 6 2, intPos 7 1, intPos 7 2, intPos 8 1, intPos 8 2,
   -- 2-top tables with chairs
   intPos 3 1, intPos 2 1, intPos 4 1,
   intPos 3 3, intPos 2 3, intPos 4 3,
   intPos 7 4, intPos 6 4, intPos 8 4,
   -- 4-top tables with chairs
   intPos 3 9, intPos 3 10, intPos 4 9, intPos 4 10,
   intPos 2 9, intPos 2 10, intPos 5 9, intPos 5 10,
   intPos 7 9, intPos 7 10, intPos 8 9, intPos 8 10,
   intPos 6 9, intPos 6 10, intPos 9 9, intPos 9 10,
   intPos 7 12, intPos 7 13, intPos 8 12, intPos 8 13,
   intPos 6 12, intPos 6 13, intPos 9 12, intPos 9 13]

/-- Modelled from the spec: requested dimensions fit the fixed furniture
layout iff every furniture cell is inside the grid. -/
def furnitureFits (width height : Nat) : Bool :=
  furnitureFootprint.all
    (fun p => decide (p.1 < (height : Int) ∧ p.2 < (width : Int)))

/-- `npSet` succeeds in bounds. -/
theorem npSet_ok (height width : Nat) (g : Cells) (r c v : Nat)
    (h : r < height ∧ c < width) :
    npSet height width g r c v = Except.ok (set2d g r c v) := by
  simp [npSet, h]

/-- `npSet` raises out of bounds. -/
theorem npSet_error (height width : Nat) (g : Cells) (r c v : Nat)
    (h : ¬(r < height ∧ c < width)) :
    npSet height width g r c v = Except.error PyErr.indexError := by
  simp [npSet, h]

/-- Bind on a successful `Except`. -/
theorem exceptBind_ok {ε α β : Type} (x : α) (f : α → Except ε β) :
    (Except.ok x : Except ε α) >>= f = f x := rfl

/-- Bind propagates an `Except` error. -/
theorem exceptBind_error {ε α β : Type} (e : ε) (f : α → Except ε β) :
    (Except.error e : Except ε α) >>= f = Except.error e := rfl

/-- An error is not ok. -/
theorem exceptIsOk_error {ε α : Type} (e : ε) :
    (Except.error e : Except ε α).isOk = false := rfl

/-- `pure` into `Except` is `ok`. -/
theorem exceptPure {ε α : Type} (x : α) : (pure x : Except ε α) = Except.ok x := rfl

/-- C10 (amended): construction does fail — with an uncaught numpy
`IndexError` from a direct grid write, not a dedicated configuration error
— whenever the requested dimensions are below the threshold demanded by
the unchecked writes: height < 10 or width < 14.  (This threshold is
strictly weaker than "fits the fixed furniture layout": at width 14 the
kitchen no longer fits, yet construction completes by silently clipping
it; see the counterexample.) -/
theorem createLayout_raises_below_threshold (width height : Nat)
    (hsmall : height < 10 ∨ width < 14) :
    (createLayout width height).isOk = false := by
  rcases hsmall with hh | hw
  · simp (disch := omega) only [createLayout, add2top, add4top, npSet_ok, npSet_error,
      exceptPure, exceptBind_ok, exceptBind_error, exceptIsOk_error]
  · by_cases hh2 : height < 10
    · simp (disch := omega) only [createLayout, add2top, add4top, npSet_ok, npSet_error,
        exceptPure, exceptBind_ok, exceptBind_error, exceptIsOk_error]
    · push_neg at hh2
      interval_cases width <;>
        simp (disch := omega) only [createLayout, add2top, add4top, npSet_ok, npSet_error,
          exceptPure, exceptBind_ok, exceptBind_error, exceptIsOk_error]

/-- C10 witness: the amended claim applied at the concrete too-small
dimensions 13 x 10. -/
theorem createLayout_raises_below_threshold_witness :
    ((10 : Nat) < 10 ∨ (13 : Nat) < 14) ∧ (createLayout 13 10).isOk = false :=
  ⟨by decide, createLayout_raises_below_threshold 13 10 (by decide)⟩

/-- C10 counterexample: width 14, height 10 is too small to fit the fixed
furniture layout (the kitchen extends to column 14), yet construction
completes without any error: the kitchen is silently clipped by the
bounds-checked rectangle helper rather than failing. -/
theorem too_small_world_still_builds :
    furnitureFits 14 10 = false ∧ (createLayout 14 10).isOk = true := by decide

/-- C1: the code contradicts the documented norm ("Cutting in line is
ALWAYS a violation"): a concrete `check_violation` call raises
`AttributeError` instead of returning a boolean and logging, because
`Action.CUT_IN_LINE` does not exist.  No call can ever return `True` or
append a `ViolationRecord`. -/
theorem check_violation_concrete_call_raises :
    Norm.check_violation ⟨[]⟩ (Customer.create ("cust_b") (intPos 9 7)) Action.QUEUE []
      = Except.error PyErr.attributeError := rfl

end NormGym
